import Mathlib

/- Verification development for the AMPL-2023 compiler front end: a shallow
embedding of src/amplc.c, src/symboltable.c and src/hashtable.c, together with
theorems about the embedded definitions. Machine integers are modelled as Nat
with explicit wrapping where the C arithmetic can wrap; memory-allocation
failure paths are not modelled. -/

set_option autoImplicit false

/- ===== Value-type algebra =====
Modelled from the spec: valtypes.h is not under src/. Spec section 3 fixes a
base kind (none, boolean, integer) plus an array attribute and a callable
attribute, and the bit operations appearing in src/amplc.c (t & 6, |=
TYPE_ARRAY, t1 = TYPE_CALLABLE, ^ TYPE_CALLABLE) fix this bitmask encoding. -/

/-- Value-type with no base kind and no attributes (the reserved no-type). -/
def TYPE_NONE : Nat := 0

/-- Array attribute bit of a value type. -/
def TYPE_ARRAY : Nat := 1

/-- Boolean base bit of a value type. -/
def TYPE_BOOLEAN : Nat := 2

/-- Integer base bit of a value type. -/
def TYPE_INTEGER : Nat := 4

/-- Callable attribute bit of a value type. -/
def TYPE_CALLABLE : Nat := 8

/-- Modelled from the spec: the value type has the array attribute. -/
def IS_ARRAY_TYPE (t : Nat) : Bool := t &&& TYPE_ARRAY != 0

/-- Modelled from the spec: alias of IS_ARRAY_TYPE, both names appear in amplc.c. -/
def IS_ARRAY (t : Nat) : Bool := IS_ARRAY_TYPE t

/-- Modelled from the spec: the value type has the callable attribute. -/
def IS_CALLABLE_TYPE (t : Nat) : Bool := t &&& TYPE_CALLABLE != 0

/-- Modelled from the spec: a function is a callable whose base kind is not none. -/
def IS_FUNCTION (t : Nat) : Bool :=
  IS_CALLABLE_TYPE t && (t &&& (TYPE_BOOLEAN ||| TYPE_INTEGER) != 0)

/-- Modelled from the spec: a procedure is a callable whose base kind is none. -/
def IS_PROCEDURE (t : Nat) : Bool :=
  IS_CALLABLE_TYPE t && (t &&& (TYPE_BOOLEAN ||| TYPE_INTEGER) == 0)

/-- Modelled from the spec: the value type has integer base. -/
def IS_INTEGER_TYPE (t : Nat) : Bool := t &&& TYPE_INTEGER != 0

/-- Modelled from the spec: the value type has boolean base. -/
def IS_BOOLEAN_TYPE (t : Nat) : Bool := t &&& TYPE_BOOLEAN != 0

/-- Modelled from the spec: set-return-type strips the callable bit (idempotent). -/
def SET_RETURN_TYPE (t : Nat) : Nat :=
  t &&& (TYPE_ARRAY ||| TYPE_BOOLEAN ||| TYPE_INTEGER)

/- ===== Tokens, positions and diagnostics ===== -/

/-- Token kinds needed by the embedded parser fragments, named after the TOK_
constants of token.h (reconstructed from their uses in src/amplc.c). -/
inductive TokType where
  | TOK_EOF
  | TOK_PROGRAM
  | TOK_ID
  | TOK_COLON
  | TOK_MAIN
  | TOK_LPAREN
  | TOK_RPAREN
  | TOK_COMMA
  | TOK_ARROW
  | TOK_BOOL
  | TOK_INT
  | TOK_ARRAY
  | TOK_RETURN
  | TOK_NUM
  | TOK_CHILLAX
  deriving DecidableEq

/-- A source position (line, column), as delivered by the scanner with each
token; modelled from the spec since scanner.h is not under src/. -/
structure SourcePos where
  line : Nat
  col : Nat
  deriving DecidableEq

/-- A scanner token: kind, lexeme and start position (spec section 4.1). -/
structure Token where
  type : TokType
  lexeme : String
  pos : SourcePos
  deriving DecidableEq

/-- Error kinds of errmsg.h as they are raised by src/amplc.c, each carrying the
varargs its abort_c call sites actually pass. ERR_NOT_A_PROCEDURE carries an
optional string because one call site (src/amplc.c line 608) passes no
identifier argument although _abort_cp reads one. -/
inductive Err where
  | expect (expected found : TokType)
  | expectedTypeSpecifier (found : TokType)
  | multipleDefinition (id : String)
  | unknownIdentifier (id : String)
  | notAVariable (id : String)
  | notAnArray (id : String)
  | notAFunction (id : String)
  | notAProcedure (idArg : Option String)
  | tooFewArguments (id : String)
  | tooManyArguments (id : String)
  | missingReturnExpr
  | returnExprNotAllowed
  | typeMismatch (found expected : Nat) (ctx : String)
  deriving DecidableEq

/-- A fatal diagnostic: the position it is attributed to and the error. -/
structure Abort where
  pos : SourcePos
  err : Err
  deriving DecidableEq

/-- Printable token names used in expected/found messages; modelled from the
spec's message examples (token.h is not under src/). -/
def get_token_string (t : TokType) : String :=
  match t with
  | TokType.TOK_EOF => "end-of-file"
  | TokType.TOK_PROGRAM => "'program'"
  | TokType.TOK_ID => "identifier"
  | TokType.TOK_COLON => "':'"
  | TokType.TOK_MAIN => "'main'"
  | TokType.TOK_LPAREN => "'('"
  | TokType.TOK_RPAREN => "')'"
  | TokType.TOK_COMMA => "','"
  | TokType.TOK_ARROW => "'->'"
  | TokType.TOK_BOOL => "'bool'"
  | TokType.TOK_INT => "'int'"
  | TokType.TOK_ARRAY => "'array'"
  | TokType.TOK_RETURN => "'return'"
  | TokType.TOK_NUM => "number"
  | TokType.TOK_CHILLAX => "'chillax'"

/-- Printable value-type names, modelled from the spec's message examples. -/
def get_valtype_string (t : Nat) : String :=
  if t = TYPE_INTEGER then "int"
  else if t = TYPE_BOOLEAN then "bool"
  else if t = TYPE_INTEGER ||| TYPE_ARRAY then "int array"
  else if t = TYPE_BOOLEAN ||| TYPE_ARRAY then "bool array"
  else "none"

/-- The message text _abort_cp (src/amplc.c lines 1267-1377) produces for each
error, as an Option: none models the ERR_NOT_A_PROCEDURE call that provides no
identifier argument, for which the C va_arg read is undefined and no definite
text exists. -/
def renderErr (e : Err) : Option String :=
  match e with
  | Err.expect exp f =>
      some ("expected " ++ get_token_string exp ++ ", but found " ++ get_token_string f)
  | Err.expectedTypeSpecifier f =>
      some ("expected type specifier, but found " ++ get_token_string f)
  | Err.multipleDefinition id => some ("multiple definition of '" ++ id ++ "'")
  | Err.unknownIdentifier id => some ("unknown identifier '" ++ id ++ "'")
  | Err.notAVariable id => some ("'" ++ id ++ "' is not a variable")
  | Err.notAnArray id => some ("'" ++ id ++ "' is not an array")
  | Err.notAFunction id => some ("'" ++ id ++ "' is not a function")
  | Err.notAProcedure (some id) => some ("'" ++ id ++ "' is not a procedure")
  | Err.notAProcedure none => none
  | Err.tooFewArguments id => some ("too few arguments for call to '" ++ id ++ "'")
  | Err.tooManyArguments id => some ("too many arguments for call to '" ++ id ++ "'")
  | Err.missingReturnExpr => some "missing return expression for a function"
  | Err.returnExprNotAllowed => some "a return expression is not allowed for a procedure"
  | Err.typeMismatch found expected ctx =>
      some ("incompatible types (expected " ++ get_valtype_string expected ++
        ", found " ++ get_valtype_string found ++ ") " ++ ctx)

/- ===== parse_return (src/amplc.c) ===== -/

/-- Shallow embedding of chktypes (src/amplc.c lines 1178-1196): aborts with a
type-mismatch diagnostic exactly when the found type differs from the expected
type; ctx is the formatted trailing context string. -/
def chktypes (found expected : Nat) (ctx : String) : Option Err :=
  if found ≠ expected then some (Err.typeMismatch found expected ctx) else none

/-- Shallow embedding of parse_return (src/amplc.c lines 753-787). return_type
is the global current return type of the enclosing subroutine; startsExpr says
whether the lookahead after the return keyword satisfies STARTS_EXPR; t1 is the
value type parse_expr synthesizes for that expression when present. Result some
is the abort diagnostic, none means the statement is accepted. The IS_PROCEDURE
test at line 764 runs before the expression test, so its two later occurrences
(lines 769 and 782) are unreachable. -/
def parse_return (return_type : Nat) (startsExpr : Bool) (t1 : Nat) : Option Err :=
  if IS_PROCEDURE return_type then some Err.returnExprNotAllowed
  else if startsExpr then
    if IS_PROCEDURE return_type then some Err.returnExprNotAllowed
    else if IS_FUNCTION return_type then
      chktypes (SET_RETURN_TYPE t1) (SET_RETURN_TYPE return_type) "for 'return' statement"
    else none
  else if IS_FUNCTION return_type then some Err.missingReturnExpr
  else if IS_PROCEDURE return_type then some Err.returnExprNotAllowed
  else none

/-- C1: evaluating parse_return at the failing input: with the current return
type a procedure type (TYPE_CALLABLE) and no expression after the return
keyword, the code aborts with ERR_RETURN_EXPRESSION_NOT_ALLOWED, although the
claim (and the wording of that very message) says a bare return is accepted in
a procedure; the early IS_PROCEDURE test at src/amplc.c line 764 fires before
the expression test. -/
theorem parse_return_bare_procedure_aborts :
    parse_return TYPE_CALLABLE false TYPE_NONE = some Err.returnExprNotAllowed := rfl

/- ===== parse_call (src/amplc.c) ===== -/

/-- Identifier properties (IDPropt of symboltable.h, reconstructed from its uses
in src/symboltable.c and src/amplc.c): value type, local frame offset,
parameter count and parameter value types. -/
structure IDPropt where
  type : Nat
  offset : Nat
  nparams : Nat
  params : List Nat
  deriving DecidableEq

/-- Shallow embedding of parse_call (src/amplc.c lines 589-624) up to the
parse_arglist call: found is the find_name result for the identifier; some err
is the abort raised, none means control proceeds into parse_arglist. The first
branch mirrors line 608, where abort_c is invoked for ERR_NOT_A_PROCEDURE
without the identifier vararg that _abort_cp reads. -/
def parse_call (id : String) (found : Option IDPropt) : Option Err :=
  match found with
  | none => some (Err.unknownIdentifier id)
  | some prop =>
      if IS_FUNCTION prop.type then some (Err.notAProcedure none)
      else if !IS_CALLABLE_TYPE prop.type then
        if IS_FUNCTION prop.type then some (Err.notAFunction id)
        else some (Err.notAProcedure (some id))
      else none

/-- A concrete function record: callable with integer base, one int parameter. -/
def funcF : IDPropt := ⟨TYPE_CALLABLE ||| TYPE_INTEGER, 0, 1, [TYPE_INTEGER]⟩

/-- C5: a call statement on a function aborts with ERR_NOT_A_PROCEDURE from the
early IS_FUNCTION test, but the call site passes no identifier argument, so no
definite diagnostic text exists; the text the claim demands would require the
identifier to be passed, as the sibling call site at line 617 does. -/
theorem parse_call_function_missing_identifier :
    parse_call "f" (some funcF) = some (Err.notAProcedure none) ∧
    renderErr (Err.notAProcedure none) = none ∧
    renderErr (Err.notAProcedure (some "f")) = some "'f' is not a procedure" :=
  ⟨rfl, rfl, rfl⟩

/- ===== Hash table (src/hashtable.c) ===== -/

/-- Outcome codes of ht_insert: EXIT_SUCCESS, EXIT_FAILURE and
HASH_TABLE_KEY_VALUE_PAIR_EXISTS. -/
inductive HtResult where
  | success
  | failure
  | keyExists
  deriving DecidableEq

/-- Shallow embedding of struct hashtab (src/hashtable.c lines 29-45). Buckets
are lists with the head at the C list head. The maximum load factor, a C float
that is always 0.75f in this repository, is modelled exactly by the rational
lf_num / lf_den: for every capacity the table can reach, the float comparison
in ht_insert decides the same way as the exact rational comparison, because the
true load factor is never within float rounding distance of the threshold. The
idx field is stored and never read, as in the source. -/
structure HashTab (K V : Type) where
  table : List (List (K × V))
  size : Nat
  num_entries : Nat
  lf_num : Nat
  lf_den : Nat
  idx : Nat
  hash : K → Nat → Nat
  cmp : K → K → Int

/-- The delta array (src/hashtable.c lines 57-58): difference between each
power of two and the largest prime below it. -/
def delta : List Nat :=
  [0, 0, 1, 1, 3, 1, 3, 1, 5, 3, 3, 9, 3, 1, 3, 19,
   15, 1, 5, 1, 3, 9, 3, 15, 3, 39, 5, 39, 57, 3, 35, 1]

/-- Shallow embedding of ht_init (src/hashtable.c lines 83-109): size starts at
13 while talloc allocates 1 <<< INITIAL_DELTA_INDEX = 16 buckets, exactly as in
the source; allocation failure is not modelled. -/
def ht_init {K V : Type} (lfn lfd : Nat) (hash : K → Nat → Nat)
    (cmp : K → K → Int) : HashTab K V :=
  { table := List.replicate 16 []
    size := 13
    num_entries := 0
    lf_num := lfn
    lf_den := lfd
    idx := 4
    hash := hash
    cmp := cmp }

/-- The doubling loop of getsize (src/hashtable.c lines 296-304), with explicit
fuel: num doubles from 2 until it reaches the current size, so fuel size + 2
always suffices; the result is the final (num, power). -/
def gsLoop : Nat → Nat → Nat → Nat → Nat × Nat
  | 0, num, power, _ => (num, power)
  | fuel + 1, num, power, size =>
      let num2 := num * 2
      let power2 := power + 1
      if size ≤ num2 then (num2, power2) else gsLoop fuel num2 power2 size

/-- Shallow embedding of getsize (src/hashtable.c lines 291-310), taking the
current size field: the next capacity is num * 2 - delta[power + 1] where num
is the first power of two (at least 4) reaching the current size; a delta index
past the array (which the C would read out of bounds) is modelled as 0. -/
def getsize (size : Nat) : Nat :=
  let np := gsLoop (size + 2) 2 1 size
  np.1 * 2 - delta.getD (np.2 + 1) 0

/-- Shallow embedding of rehash (src/hashtable.c lines 337-373): allocate the
new bucket array, walk the old buckets front to back, pushing each entry onto
the front of its new bucket, then install the new table and size; allocation
failure is not modelled. -/
def rehash {K V : Type} (ht : HashTab K V) : HashTab K V :=
  let newSize := getsize ht.size
  let newTable :=
    ht.table.foldl
      (fun acc bucket =>
        bucket.foldl
          (fun acc2 e =>
            let h := ht.hash e.1 newSize
            acc2.set h ((e.1, e.2) :: acc2.getD h []))
          acc)
      (List.replicate newSize [])
  { ht with table := newTable, size := newSize }

/-- The plain insertion step of ht_insert (src/hashtable.c lines 150-158): push
the new entry onto the front of its bucket and bump the entry count, with no
load-factor check. Named separately to state that a threshold-crossing
insertion happens only after the rehash. -/
def insertStep {K V : Type} (ht : HashTab K V) (key : K) (value : V) :
    HashTab K V :=
  let hv := ht.hash key ht.size
  { ht with
      table := ht.table.set hv ((key, value) :: ht.table.getD hv [])
      num_entries := ht.num_entries + 1 }

/-- Shallow embedding of ht_insert (src/hashtable.c lines 127-161). The NULL
argument and malloc failure paths (EXIT_FAILURE) cannot arise for Lean values
and are not modelled. The duplicate scan over the key's bucket runs first; only
then is the load factor (num_entries + 1) / size compared against the
threshold, the float comparison modelled exactly by cross multiplication, and
the hash is recomputed only when a rehash happened, as in the source. -/
def ht_insert {K V : Type} (ht : HashTab K V) (key : K) (value : V) :
    HtResult × HashTab K V :=
  let hv := ht.hash key ht.size
  let bucket := ht.table.getD hv []
  if bucket.any (fun e => ht.cmp key e.1 == 0) then
    (HtResult.keyExists, ht)
  else if (ht.num_entries + 1) * ht.lf_den > ht.lf_num * ht.size then
    (HtResult.success, insertStep (rehash ht) key value)
  else
    (HtResult.success, insertStep ht key value)

/-- Shallow embedding of ht_search (src/hashtable.c lines 175-192); a NULL
table argument is handled by the callers in the symbol table model. -/
def ht_search {K V : Type} (ht : HashTab K V) (key : K) : Option V :=
  ((ht.table.getD (ht.hash key ht.size) []).find?
      (fun e => ht.cmp key e.1 == 0)).map (fun e => e.2)

/-- C10: when the key is already present in its bucket, ht_insert reports
HASH_TABLE_KEY_VALUE_PAIR_EXISTS and returns the table completely unchanged:
no entry is added or replaced, the entry count does not move, and no rehash
happens regardless of the load factor. -/
theorem ht_insert_existing {K V : Type} (ht : HashTab K V) (key : K) (value : V)
    (h : ((ht.table.getD (ht.hash key ht.size) []).any
            fun e => ht.cmp key e.1 == 0) = true) :
    ht_insert ht key value = (HtResult.keyExists, ht) := by
  unfold ht_insert
  simp only [h, if_true]

/-- A concrete overfull table (load factor 3/2 at threshold 3/4) that already
contains the key 5. -/
def exT10 : HashTab Nat Nat :=
  { table := [[(2, 20)], [(5, 55), (3, 33)]]
    size := 2
    num_entries := 3
    lf_num := 3
    lf_den := 4
    idx := 4
    hash := fun k s => k % s
    cmp := fun a b => if a = b then 0 else 1 }

/-- C10 witness: inserting the already-present key 5 into the concrete overfull
table reports the existing pair and leaves the table untouched. -/
theorem ht_insert_existing_witness :
    (((exT10.table.getD (exT10.hash 5 exT10.size) []).any
        fun e => exT10.cmp 5 e.1 == 0) = true) ∧
    ht_insert exT10 5 99 = (HtResult.keyExists, exT10) :=
  ⟨by decide, ht_insert_existing exT10 5 99 (by decide)⟩

/- ===== Symbol table (src/symboltable.c) ===== -/

/-- Shallow embedding of shift_hash (src/symboltable.c lines 237-265, release
branch): a shift-xor over the bytes, each step wrapping at 2 ^ 32 like the C
unsigned arithmetic, finally reduced mod the table size. -/
def shift_hash (s : String) (size : Nat) : Nat :=
  (s.toList.foldl (fun h c => ((h <<< 5) % 2 ^ 32) ^^^ c.toNat) 0) % size

/-- Shallow embedding of key_strcmp (src/symboltable.c lines 273-279): strcmp,
of which the hash table only ever tests the result against 0; equality of the
Lean strings models result 0 exactly. -/
def key_strcmp (a b : String) : Int :=
  if a = b then 0 else if a < b then -1 else 1

/-- The module-level state of src/symboltable.c lines 22-29: the active table,
the saved outer table (NULL modelled as none), the running offset and the
saved offset. -/
structure SymState where
  table : Option (HashTab String IDPropt)
  saved_table : Option (HashTab String IDPropt)
  curr_offset : Nat
  saved_offset : Nat

/-- Shallow embedding of init_symbol_table (src/symboltable.c lines 43-50); the
C statics start zero-initialised, so saved_offset begins at 0. -/
def init_symbol_table : SymState :=
  { table := some (ht_init 3 4 shift_hash key_strcmp)
    saved_table := none
    curr_offset := 1
    saved_offset := 0 }

/-- Shallow embedding of open_subroutine (src/symboltable.c lines 58-84):
saved_offset is assigned before the NULL check, the subroutine is inserted
into the still-active global table, and on success a fresh table becomes the
active one with the offset reset to 1; allocation failure of the fresh table
is not modelled. -/
def open_subroutine (st : SymState) (id : String) (prop : IDPropt) :
    Bool × SymState :=
  let st1 := { st with saved_offset := st.curr_offset }
  match st1.table with
  | none => (false, st1)
  | some t =>
      match ht_insert t id prop with
      | (HtResult.success, t2) =>
          (true, { st1 with
                     saved_table := some t2
                     table := some (ht_init 3 4 shift_hash key_strcmp)
                     curr_offset := 1 })
      | (_, t2) => (false, { st1 with table := some t2 })

/-- Shallow embedding of close_subroutine (src/symboltable.c lines 89-98): the
active table is released and the saved table reactivated (the saved_table
field itself is not cleared, as in the source), and the offset is then set to
1 unconditionally; the saved_offset written by open_subroutine is never read
back. -/
def close_subroutine (st : SymState) : SymState :=
  let st1 :=
    match st.table with
    | none => st
    | some _ => { st with table := st.saved_table }
  { st1 with curr_offset := 1 }

/-- Shallow embedding of get_variables_width (src/symboltable.c lines 160-163). -/
def get_variables_width (st : SymState) : Nat := st.curr_offset

/-- Shallow embedding of insert_name (src/symboltable.c lines 106-135). The C
inserts the pointer to prop and then assigns prop.offset := curr_offset in
place when the identifier is non-callable, so the record reachable through the
table carries that offset; the pure model therefore sets the offset before the
insertion, which cannot change how ht_insert treats the key. On a NULL table
or a duplicate the call fails and nothing else changes. -/
def insert_name (st : SymState) (id : String) (prop : IDPropt) :
    Bool × SymState :=
  match st.table with
  | none => (false, st)
  | some t =>
      let stored :=
        if IS_CALLABLE_TYPE prop.type then prop
        else { prop with offset := st.curr_offset }
      match ht_insert t id stored with
      | (HtResult.success, t2) =>
          if IS_CALLABLE_TYPE prop.type then (true, { st with table := some t2 })
          else (true, { st with table := some t2, curr_offset := st.curr_offset + 1 })
      | (_, t2) => (false, { st with table := some t2 })

/-- The current-scope lookup inside find_name: ht_search on the active table,
with a NULL active table yielding no result. -/
def cur_search (st : SymState) (id : String) : Option IDPropt :=
  match st.table with
  | none => none
  | some t => ht_search t id

/-- Shallow embedding of find_name (src/symboltable.c lines 143-154): search
the active table; on a miss, search the saved outer table when there is one,
and discard a non-callable outer hit. -/
def find_name (st : SymState) (id : String) : Option IDPropt :=
  match cur_search st id with
  | some p => some p
  | none =>
      match st.saved_table with
      | none => none
      | some s =>
          match ht_search s id with
          | none => none
          | some p => if IS_CALLABLE_TYPE p.type then some p else none

/-- C3: find_name returns the record p exactly when either the active scope
binds the name to p, or the active scope misses while a saved outer scope
exists that binds the name to p with p callable; in particular a non-callable
outer hit, or a miss in both scopes, yields not-found. -/
theorem find_name_characterization (st : SymState) (id : String) (p : IDPropt) :
    find_name st id = some p ↔
      cur_search st id = some p ∨
        (cur_search st id = none ∧ ∃ s, st.saved_table = some s ∧
          ht_search s id = some p ∧ IS_CALLABLE_TYPE p.type = true) := by
  unfold find_name
  cases hc : cur_search st id with
  | some q => simp
  | none =>
      cases hs : st.saved_table with
      | none => simp
      | some s =>
          cases hh : ht_search s id with
          | none => simp [hh]
          | some q =>
              by_cases hcall : IS_CALLABLE_TYPE q.type = true
              · simp [hh, hcall]
                rintro rfl
                exact hcall
              · simp [hh, hcall]
                rintro rfl
                simpa using hcall

/-- C9: get_variables_width returns 1 after every close_subroutine: closing a
scope resets the width instead of restoring the outer width that
open_subroutine saved into saved_offset. -/
theorem close_subroutine_width (st : SymState) :
    get_variables_width (close_subroutine st) = 1 := rfl

/- ===== Offset discipline over a scope lifetime (C4) ===== -/

/-- Run a list of insert_name requests from a starting symbol table state,
returning the final state. -/
def runInserts (st : SymState) : List (String × IDPropt) → SymState
  | [] => st
  | (id, pr) :: rest => runInserts (insert_name st id pr).2 rest

/-- The offsets insert_name assigns, in order, to the successful non-callable
(variable) insertions of a run: by the definition of insert_name the record
stored on such a step carries offset curr_offset of the state before the
step. -/
def succVarOffsets (st : SymState) : List (String × IDPropt) → List Nat
  | [] => []
  | (id, pr) :: rest =>
      if (insert_name st id pr).1 && !IS_CALLABLE_TYPE pr.type then
        st.curr_offset :: succVarOffsets (insert_name st id pr).2 rest
      else
        succVarOffsets (insert_name st id pr).2 rest

/-- Unfolding equation for runInserts on a cons. -/
theorem runInserts_cons (st : SymState) (id : String) (pr : IDPropt)
    (rest : List (String × IDPropt)) :
    runInserts st ((id, pr) :: rest) = runInserts (insert_name st id pr).2 rest := rfl

/-- Unfolding equation for succVarOffsets on a cons. -/
theorem succVarOffsets_cons (st : SymState) (id : String) (pr : IDPropt)
    (rest : List (String × IDPropt)) :
    succVarOffsets st ((id, pr) :: rest) =
      (if (insert_name st id pr).1 && !IS_CALLABLE_TYPE pr.type then
        st.curr_offset :: succVarOffsets (insert_name st id pr).2 rest
      else succVarOffsets (insert_name st id pr).2 rest) := rfl

/-- How insert_name moves curr_offset: it increments exactly on a successful
insertion of a non-callable record, and is untouched otherwise. -/
theorem insert_name_curr_offset (st : SymState) (id : String) (pr : IDPropt) :
    (insert_name st id pr).2.curr_offset =
      (if (insert_name st id pr).1 && !IS_CALLABLE_TYPE pr.type then
        st.curr_offset + 1 else st.curr_offset) := by
  unfold insert_name
  cases st.table with
  | none => simp
  | some t =>
      by_cases hcall : IS_CALLABLE_TYPE pr.type = true
      · simp only [hcall]
        split <;> simp
      · simp only [Bool.not_eq_true] at hcall
        simp only [hcall]
        split <;> simp

/-- The run invariant behind C4: the recorded offsets start at the initial
curr_offset and count up by one, and the final curr_offset advances by exactly
the number of successful variable insertions. -/
theorem runInserts_offsets (ops : List (String × IDPropt)) (st : SymState) :
    succVarOffsets st ops = List.range' st.curr_offset (succVarOffsets st ops).length ∧
    (runInserts st ops).curr_offset = st.curr_offset + (succVarOffsets st ops).length := by
  induction ops generalizing st with
  | nil => simp [succVarOffsets, runInserts]
  | cons op rest ih =>
      obtain ⟨id, pr⟩ := op
      have hoff := insert_name_curr_offset st id pr
      obtain ⟨ih1, ih2⟩ := ih (insert_name st id pr).2
      rw [succVarOffsets_cons, runInserts_cons]
      by_cases hb : ((insert_name st id pr).1 && !IS_CALLABLE_TYPE pr.type) = true
      · rw [if_pos hb] at hoff ⊢
        rw [hoff] at ih1 ih2
        constructor
        · rw [List.length_cons, List.range'_succ, ← ih1]
        · rw [ih2, List.length_cons]
          omega
      · rw [if_neg hb] at hoff ⊢
        rw [hoff] at ih1 ih2
        exact ⟨ih1, ih2⟩

/-- C4: over a scope lifetime beginning with a freshly reset frame width (as
after init_symbol_table or a successful open_subroutine), the successful
variable insertions receive offsets 1, 2, 3, ... in definition order, and
after any sequence of requests get_variables_width equals 1 plus the number of
variables inserted so far (applying the theorem to each prefix of the requests
gives the width at every intermediate point). -/
theorem insert_name_offset_monotonic (st : SymState) (ops : List (String × IDPropt))
    (h : st.curr_offset = 1) :
    succVarOffsets st ops = List.range' 1 (succVarOffsets st ops).length ∧
    get_variables_width (runInserts st ops) = 1 + (succVarOffsets st ops).length := by
  obtain ⟨h1, h2⟩ := runInserts_offsets ops st
  rw [h] at h1 h2
  exact ⟨h1, h2⟩

/-- A concrete integer variable record. -/
def varX : IDPropt := ⟨TYPE_INTEGER, 0, 0, []⟩

/-- A concrete boolean variable record. -/
def varY : IDPropt := ⟨TYPE_BOOLEAN, 0, 0, []⟩

/-- A concrete request list: two distinct variables. -/
def c4ops : List (String × IDPropt) := [("x", varX), ("y", varY)]

/-- C4 witness: the fresh state produced by init_symbol_table has width 1, and
the theorem applied there yields the offset and width discipline for a concrete
two-variable run. -/
theorem insert_name_offset_monotonic_witness :
    init_symbol_table.curr_offset = 1 ∧
    (succVarOffsets init_symbol_table c4ops =
        List.range' 1 (succVarOffsets init_symbol_table c4ops).length ∧
      get_variables_width (runInserts init_symbol_table c4ops) =
        1 + (succVarOffsets init_symbol_table c4ops).length) :=
  ⟨rfl, insert_name_offset_monotonic init_symbol_table c4ops rfl⟩

/- ===== Rehash capacity (C8) ===== -/

/-- Spec-side predicate, following the claim's wording: p is the next prime
strictly above n. Compared against the capacity the code actually picks. -/
def isNextPrimeAbove (n p : Nat) : Prop :=
  n < p ∧ Nat.Prime p ∧ ∀ q, q < p → n < q → ¬ Nat.Prime q

/-- Spec-side predicate for the amended C8: p is the largest prime strictly
below m. -/
def isLargestPrimeBelow (m p : Nat) : Prop :=
  Nat.Prime p ∧ p < m ∧ ∀ q, q < m → p < q → ¬ Nat.Prime q

instance (n p : Nat) : Decidable (isNextPrimeAbove n p) := by
  unfold isNextPrimeAbove
  infer_instance

instance (m p : Nat) : Decidable (isLargestPrimeBelow m p) := by
  unfold isLargestPrimeBelow
  infer_instance

/-- A concrete table at the initial capacity 13 (16 allocated buckets, as
ht_init builds them) holding nine entries, so one more insertion pushes the
load factor past 3/4. -/
def exT8 : HashTab Nat Nat :=
  { table := [[(0, 0)], [(1, 1)], [(2, 2)], [(3, 3)], [(4, 4)], [(5, 5)],
              [(6, 6)], [(7, 7)], [(8, 8)], [], [], [], [], [], [], []]
    size := 13
    num_entries := 9
    lf_num := 3
    lf_den := 4
    idx := 4
    hash := fun k s => k % s
    cmp := fun a b => if a = b then 0 else 1 }

/-- C8 counterexample: at the initial capacity 13, a threshold-crossing
insertion rehashes to capacity 31, but the next prime just above twice the
capacity (26) is 29, not 31, so the claimed capacity formula does not match
the code. -/
theorem rehash_capacity_not_next_prime :
    ((ht_insert exT8 9 9).2).size = 31 ∧ isNextPrimeAbove 26 29 ∧
      ¬ isNextPrimeAbove 26 31 := by
  refine ⟨by decide, by decide, by decide⟩

/-- C8 amended: when inserting a new key would push the load factor strictly
past the threshold, the table is rehashed before the insertion (the result is
the plain insertion step applied to the rehashed table) and the new capacity
is getsize of the old one: the largest prime below twice the power of two
reached from the old capacity, giving 13 to 31, 31 to 61 and 61 to 127, not
the next prime above twice the capacity. -/
theorem ht_insert_rehash_before {K V : Type} (ht : HashTab K V) (key : K) (value : V)
    (hnew : ((ht.table.getD (ht.hash key ht.size) []).any
               fun e => ht.cmp key e.1 == 0) = false)
    (hlf : (ht.num_entries + 1) * ht.lf_den > ht.lf_num * ht.size) :
    ht_insert ht key value = (HtResult.success, insertStep (rehash ht) key value) ∧
    (rehash ht).size = getsize ht.size ∧
    isLargestPrimeBelow 32 (getsize 13) ∧ isLargestPrimeBelow 64 (getsize 31) ∧
    isLargestPrimeBelow 128 (getsize 61) := by
  refine ⟨?_, rfl, by decide, by decide, by decide⟩
  unfold ht_insert
  simp only [hnew, Bool.false_eq_true, if_false, hlf, if_pos]

/-- C8 witness: the concrete nine-entry table at capacity 13 satisfies both
hypotheses for the fresh key 9, and the amended theorem applies. -/
theorem ht_insert_rehash_before_witness :
    (((exT8.table.getD (exT8.hash 9 exT8.size) []).any
        fun e => exT8.cmp 9 e.1 == 0) = false) ∧
    ((exT8.num_entries + 1) * exT8.lf_den > exT8.lf_num * exT8.size) ∧
    (ht_insert exT8 9 9 = (HtResult.success, insertStep (rehash exT8) 9 9) ∧
      (rehash exT8).size = getsize exT8.size ∧
      isLargestPrimeBelow 32 (getsize 13) ∧ isLargestPrimeBelow 64 (getsize 31) ∧
      isLargestPrimeBelow 128 (getsize 61)) :=
  ⟨by decide, by decide, ht_insert_rehash_before exT8 9 9 (by decide) (by decide)⟩

/- ===== parse_arglist (src/amplc.c) ===== -/

/-- Shallow embedding of the per-argument check of parse_arglist (src/amplc.c
lines 832-843 and 853-866): when neither side is an array, the pair passes if
both are integer, both boolean or both callable, and otherwise chktypes aborts
exactly when the two types differ; when an array is involved, chktypes aborts
exactly when the two types differ. True means no diagnostic. -/
def argCheck (t1 p : Nat) : Bool :=
  if !IS_ARRAY_TYPE t1 && !IS_ARRAY_TYPE p then
    (IS_INTEGER_TYPE t1 && IS_INTEGER_TYPE p) ||
    (IS_BOOLEAN_TYPE t1 && IS_BOOLEAN_TYPE p) ||
    (IS_CALLABLE_TYPE t1 && IS_CALLABLE_TYPE p) || (t1 == p)
  else t1 == p

/-- The comma loop and trailing arity check of parse_arglist (src/amplc.c lines
846-871): on each comma the count is first compared with nparams (too many),
then the next argument is parsed and checked; after the loop a remaining
deficit is too few. The counter i is the number of arguments already
consumed. -/
def argLoop (id : String) (params : List Nat) (nparams : Nat) :
    Nat → List Nat → Option Err
  | i, [] => if i < nparams then some (Err.tooFewArguments id) else none
  | i, t :: rest =>
      if nparams ≤ i then some (Err.tooManyArguments id)
      else if argCheck t (params.getD i 0) then argLoop id params nparams (i + 1) rest
      else some (Err.typeMismatch t (params.getD i 0)
                  ("for argument " ++ Nat.repr (i + 1) ++ " of call to '" ++ id ++ "'"))

/-- Shallow embedding of parse_arglist (src/amplc.c lines 813-877). args lists
the value types parse_expr synthesizes for the actual argument expressions
left to right, [] standing for the empty list; prop is the callee's symbol
table record, found by the find_name at entry (the claim presupposes the
callee is found, so the unknown-identifier abort is not reached). The first
argument, when present, is checked before any arity comparison (the C reads
params[0] unconditionally; the read is modelled by getD with default 0), and
with an empty list the whole block, including the trailing too-few check, is
skipped before the closing parenthesis is consumed. -/
def parse_arglist (id : String) (prop : IDPropt) (args : List Nat) : Option Err :=
  match args with
  | [] => none
  | t :: rest =>
      if argCheck t (prop.params.getD 0 0) then
        argLoop id prop.params prop.nparams 1 rest
      else some (Err.typeMismatch t (prop.params.getD 0 0)
                  ("for argument 1 of call to '" ++ id ++ "'"))

/-- A concrete procedure record with one declared integer parameter. -/
def propG : IDPropt := ⟨TYPE_CALLABLE, 0, 1, [TYPE_INTEGER]⟩

/-- C2 counterexample: a callee with one declared parameter applied to the
empty argument list is accepted by parse_arglist (no diagnostic at all), not
rejected with the too-few-arguments diagnostic, because the trailing arity
check sits inside the branch taken only for a nonempty argument list. -/
theorem parse_arglist_empty_accepted :
    propG.nparams = 1 ∧ parse_arglist "g" propG [] = none ∧
      parse_arglist "g" propG [] ≠ some (Err.tooFewArguments "g") :=
  ⟨rfl, rfl, by decide⟩

/-- Arity behaviour of the comma loop, for a start index that never exceeds
nparams and arguments that pass their checks while in range. -/
theorem argLoop_arity (id : String) (params : List Nat) (nparams : Nat)
    (args : List Nat) (i : Nat) (hi : i ≤ nparams)
    (hchk : ∀ j, j < args.length → i + j < nparams →
      argCheck (args.getD j 0) (params.getD (i + j) 0) = true) :
    argLoop id params nparams i args =
      (if i + args.length < nparams then some (Err.tooFewArguments id)
       else if nparams < i + args.length then some (Err.tooManyArguments id)
       else none) := by
  induction args generalizing i with
  | nil =>
      simp only [argLoop, List.length_nil, Nat.add_zero]
      rcases Nat.lt_or_ge i nparams with h | h
      · rw [if_pos h, if_pos h]
      · rw [if_neg (Nat.not_lt.mpr h), if_neg (Nat.not_lt.mpr h),
          if_neg (Nat.not_lt.mpr hi)]
  | cons t rest ih =>
      simp only [argLoop, List.length_cons]
      rcases Nat.lt_or_ge i nparams with h | h
      · have h0 : argCheck t (params.getD i 0) = true := by
          have := hchk 0 (by simp) (by omega)
          simpa using this
        rw [if_neg (by omega), h0, if_pos rfl]
        have hrec := ih (i + 1) (by omega) (fun j hj hjn => by
          have := hchk (j + 1) (by simpa using Nat.succ_lt_succ hj) (by omega)
          simpa [Nat.add_assoc, Nat.add_comm 1 j] using this)
        rw [hrec]
        have e1 : i + 1 + rest.length = i + (rest.length + 1) := by omega
        rw [e1]
      · rw [if_pos h]
        rw [if_neg (by omega), if_pos (by omega)]

/-- C2 amended: for a callee found with at least one declared parameter and
arguments that pass their parameter checks while in range, a nonempty argument
list shorter than nparams aborts with too-few-arguments naming the callee, one
longer than nparams aborts with too-many-arguments naming the callee at the
comma before the first extra argument, an exact count is accepted, and the
empty list () is accepted with no arity check at all; arguments are checked
against parameters left to right. -/
theorem parse_arglist_arity (id : String) (prop : IDPropt) (args : List Nat)
    (hn : 1 ≤ prop.nparams)
    (hchk : ∀ j, j < args.length → j < prop.nparams →
      argCheck (args.getD j 0) (prop.params.getD j 0) = true) :
    parse_arglist id prop args =
      (if args.isEmpty then none
       else if args.length < prop.nparams then some (Err.tooFewArguments id)
       else if prop.nparams < args.length then some (Err.tooManyArguments id)
       else none) := by
  cases args with
  | nil => simp [parse_arglist]
  | cons t rest =>
      have h0 : argCheck t (prop.params.getD 0 0) = true := by
        have := hchk 0 (by simp) (by omega)
        simpa using this
      simp only [parse_arglist, h0, if_pos rfl]
      have hrec := argLoop_arity id prop.params prop.nparams rest 1 hn
        (fun j hj hjn => by
          have := hchk (j + 1) (by simpa using Nat.succ_lt_succ hj) (by omega)
          simpa [Nat.add_comm 1 j] using this)
      rw [hrec]
      simp only [List.isEmpty_cons, List.length_cons]
      have e1 : 1 + rest.length = rest.length + 1 := by omega
      rw [e1]
      rfl

/-- A concrete procedure record with two declared integer parameters. -/
def propH : IDPropt := ⟨TYPE_CALLABLE, 0, 2, [TYPE_INTEGER, TYPE_INTEGER]⟩

/-- C2 witness: a single integer argument for a two-parameter callee satisfies
the hypotheses, and the amended theorem classifies the call as
too-few-arguments. -/
theorem parse_arglist_arity_witness :
    (1 ≤ propH.nparams) ∧
    (∀ j, j < [TYPE_INTEGER].length → j < propH.nparams →
      argCheck ([TYPE_INTEGER].getD j 0) (propH.params.getD j 0) = true) ∧
    parse_arglist "h" propH [TYPE_INTEGER] =
      (if ([TYPE_INTEGER] : List Nat).isEmpty then none
       else if [TYPE_INTEGER].length < propH.nparams then some (Err.tooFewArguments "h")
       else if propH.nparams < [TYPE_INTEGER].length then some (Err.tooManyArguments "h")
       else none) :=
  ⟨by decide, by decide,
    parse_arglist_arity "h" propH [TYPE_INTEGER] (by decide) (by decide)⟩

/- ===== Program envelope (C6, C7) ===== -/

/-- The lookahead over a modelled token stream: the scanner feeds tokens one at
a time and delivers end-of-file from then on, so the stream is a list whose
head is the lookahead and whose exhaustion stands for EOF. -/
def curTok (toks : List Token) : Token :=
  toks.headD ⟨TokType.TOK_EOF, "", ⟨0, 0⟩⟩

/-- Shallow embedding of expect (src/amplc.c lines 1204-1211): consume the
lookahead when its kind matches, otherwise abort with ERR_EXPECT at the
current token's position. -/
def expectF (t : TokType) (toks : List Token) : Except Abort (List Token) :=
  if (curTok toks).type = t then Except.ok (toks.drop 1)
  else Except.error ⟨(curTok toks).pos, Err.expect t (curTok toks).type⟩

/-- Shallow embedding of expect_id (src/amplc.c lines 1219-1227): consume an
identifier and keep a copy of its lexeme, otherwise abort with ERR_EXPECT. -/
def expect_idF (toks : List Token) : Except Abort (String × List Token) :=
  if (curTok toks).type = TokType.TOK_ID then
    Except.ok ((curTok toks).lexeme, toks.drop 1)
  else Except.error ⟨(curTok toks).pos, Err.expect TokType.TOK_ID (curTok toks).type⟩

/-- Shallow embedding of parse_type (src/amplc.c lines 371-392): a bool or int
keyword ors the base bit into the incoming t0, an optional array keyword ors
in the array bit; anything else aborts with the type-specifier diagnostic at
the current token. -/
def parse_typeF (t0 : Nat) (toks : List Token) : Except Abort (Nat × List Token) :=
  if (curTok toks).type = TokType.TOK_BOOL ∨ (curTok toks).type = TokType.TOK_INT then
    let t1 := if (curTok toks).type = TokType.TOK_BOOL then t0 ||| TYPE_BOOLEAN
              else t0 ||| TYPE_INTEGER
    let toks1 := toks.drop 1
    if (curTok toks1).type = TokType.TOK_ARRAY then
      Except.ok (t1 ||| TYPE_ARRAY, toks1.drop 1)
    else Except.ok (t1, toks1)
  else Except.error ⟨(curTok toks).pos, Err.expectedTypeSpecifier (curTok toks).type⟩

/-- The comma loop of parse_subdef (src/amplc.c lines 291-302), collecting the
further (name, type, position) parameters; each iteration consumes at least
the comma, so the token count is always enough fuel. -/
def paramLoopF (fuel : Nat) (acc : List (String × Nat × SourcePos))
    (toks : List Token) :
    Except Abort (List (String × Nat × SourcePos) × List Token) :=
  match fuel with
  | 0 => Except.ok (acc, toks)
  | fuel + 1 =>
      if (curTok toks).type = TokType.TOK_COMMA then
        match parse_typeF 0 (toks.drop 1) with
        | Except.error a => Except.error a
        | Except.ok (t1, toks2) =>
            match expect_idF toks2 with
            | Except.error a => Except.error a
            | Except.ok (id, toks3) =>
                paramLoopF fuel (acc ++ [(id, t1, (curTok toks2).pos)]) toks3
      else Except.ok (acc, toks)

/-- The parameter-insertion loop of parse_subdef (src/amplc.c lines 322-339):
each header parameter is first looked up with find_name and then inserted with
insert_name, either failure aborting with a multiple-definition diagnostic at
the parameter's recorded position; the record is built with the current
variables width, as in the source. -/
def insertParams (st : SymState) :
    List (String × Nat × SourcePos) → Except Abort SymState
  | [] => Except.ok st
  | (id, t, pos) :: rest =>
      if (find_name st id).isSome then
        Except.error ⟨pos, Err.multipleDefinition id⟩
      else
        match insert_name st id ⟨t, get_variables_width st, 0, []⟩ with
        | (false, _) => Except.error ⟨pos, Err.multipleDefinition id⟩
        | (true, st2) => insertParams st2 rest

/-- Shallow embedding of parse_subdef (src/amplc.c lines 262-350) from the
header to the expect of the colon before the body: the fragment stops exactly
where parse_body would start, which is past every token the theorems below
need. The return_type global set here only feeds parse_return inside the body
and does not affect this fragment's outcome. -/
def parse_subdefF (st : SymState) (subpos : SourcePos) (toks : List Token) :
    Except Abort (List Token) :=
  match expect_idF toks with
  | Except.error a => Except.error a
  | Except.ok (subid, toks1) =>
      match expectF TokType.TOK_LPAREN toks1 with
      | Except.error a => Except.error a
      | Except.ok toks2 =>
          match parse_typeF 0 toks2 with
          | Except.error a => Except.error a
          | Except.ok (t1, toks3) =>
              match expect_idF toks3 with
              | Except.error a => Except.error a
              | Except.ok (id0, toks4) =>
                  match paramLoopF toks4.length [(id0, t1, (curTok toks3).pos)] toks4 with
                  | Except.error a => Except.error a
                  | Except.ok (params, toks5) =>
                      match expectF TokType.TOK_RPAREN toks5 with
                      | Except.error a => Except.error a
                      | Except.ok toks6 =>
                          match (if (curTok toks6).type = TokType.TOK_ARROW then
                                   parse_typeF TYPE_CALLABLE (toks6.drop 1)
                                 else Except.ok (TYPE_CALLABLE, toks6)) with
                          | Except.error a => Except.error a
                          | Except.ok (rt, toks7) =>
                              match open_subroutine st subid
                                  ⟨rt, get_variables_width st, params.length,
                                    params.map (fun x => x.2.1)⟩ with
                              | (false, _) =>
                                  Except.error ⟨subpos, Err.multipleDefinition subid⟩
                              | (true, st1) =>
                                  match insertParams st1 params with
                                  | Except.error a => Except.error a
                                  | Except.ok _ => expectF TokType.TOK_COLON toks7

/-- Outcome of the embedded program envelope: a fatal diagnostic, or control
reaching the first subroutine body, or control reaching the main body. -/
inductive FragResult where
  | abortc (a : Abort)
  | reachedSubBody (rest : List Token)
  | reachedMainBody (rest : List Token)
  deriving DecidableEq

/-- Shallow embedding of parse_program (src/amplc.c lines 219-257) down to the
first subroutine body or the main body: the EOF special case reports
ERR_EXPECT for the program keyword at the fixed origin (1,0); any other first
token failing expect is reported at that token's own position. The symbol
table starts from init_symbol_table as in main. -/
def parse_programF (toks : List Token) : FragResult :=
  if (curTok toks).type = TokType.TOK_EOF then
    FragResult.abortc ⟨⟨1, 0⟩, Err.expect TokType.TOK_PROGRAM TokType.TOK_EOF⟩
  else
    match expectF TokType.TOK_PROGRAM toks with
    | Except.error a => FragResult.abortc a
    | Except.ok toks1 =>
        match expect_idF toks1 with
        | Except.error a => FragResult.abortc a
        | Except.ok (_, toks2) =>
            match expectF TokType.TOK_COLON toks2 with
            | Except.error a => FragResult.abortc a
            | Except.ok toks3 =>
                if (curTok toks3).type = TokType.TOK_ID then
                  match parse_subdefF init_symbol_table (curTok toks3).pos toks3 with
                  | Except.error a => FragResult.abortc a
                  | Except.ok rest => FragResult.reachedSubBody rest
                else
                  match expectF TokType.TOK_MAIN toks3 with
                  | Except.error a => FragResult.abortc a
                  | Except.ok toks4 =>
                      match expectF TokType.TOK_COLON toks4 with
                      | Except.error a => FragResult.abortc a
                      | Except.ok toks5 => FragResult.reachedMainBody toks5

/-- First-token behaviour of the envelope, shared by the C6 theorems: the
abort, when the first token is not the program keyword, as parse_program and
expect produce it. -/
def parse_program_first (tok : Token) : Option Abort :=
  if tok.type = TokType.TOK_EOF then
    some ⟨⟨1, 0⟩, Err.expect TokType.TOK_PROGRAM TokType.TOK_EOF⟩
  else if tok.type = TokType.TOK_PROGRAM then none
  else some ⟨tok.pos, Err.expect TokType.TOK_PROGRAM tok.type⟩

/-- The first-token function agrees with the envelope parser on every abort it
may emit before the program keyword is consumed. -/
theorem parse_program_first_agrees (tok : Token) (rest : List Token)
    (h : tok.type ≠ TokType.TOK_PROGRAM) :
    parse_programF (tok :: rest) =
      FragResult.abortc ⟨(if tok.type = TokType.TOK_EOF then ⟨1, 0⟩ else tok.pos),
        Err.expect TokType.TOK_PROGRAM tok.type⟩ := by
  unfold parse_programF expectF curTok
  by_cases he : tok.type = TokType.TOK_EOF
  · simp [he]
  · simp [he, h]

/-- C6 counterexample: a first token that is an identifier starting at column
2 (any input with leading blanks has such a first token) is rejected with
ERR_EXPECT for the program keyword at its own position (1,2), not at the
origin (1,0). -/
theorem parse_program_first_not_at_origin :
    parse_program_first ⟨TokType.TOK_ID, "x", ⟨1, 2⟩⟩ =
      some ⟨⟨1, 2⟩, Err.expect TokType.TOK_PROGRAM TokType.TOK_ID⟩ ∧
    (⟨1, 2⟩ : SourcePos) ≠ ⟨1, 0⟩ :=
  ⟨rfl, by decide⟩

/-- C6 amended: when the first token is end-of-file (empty input) the missing
program keyword is reported with ERR_EXPECT at the origin (1,0); for any other
first token that is not the program keyword, the same diagnostic is reported
at that token's own position. -/
theorem parse_program_first_spec (tok : Token)
    (h : tok.type ≠ TokType.TOK_PROGRAM) :
    parse_program_first tok =
      some ⟨(if tok.type = TokType.TOK_EOF then ⟨1, 0⟩ else tok.pos),
        Err.expect TokType.TOK_PROGRAM tok.type⟩ := by
  unfold parse_program_first
  by_cases he : tok.type = TokType.TOK_EOF
  · simp [he]
  · simp [he, h]

/-- C6 witness: the empty input (a lone EOF token) is not the program keyword,
and the amended theorem places its diagnostic at the origin. -/
theorem parse_program_first_spec_witness :
    (TokType.TOK_EOF ≠ TokType.TOK_PROGRAM) ∧
    parse_program_first ⟨TokType.TOK_EOF, "", ⟨1, 0⟩⟩ =
      some ⟨(if (TokType.TOK_EOF : TokType) = TokType.TOK_EOF then ⟨1, 0⟩
              else (⟨1, 0⟩ : SourcePos)),
        Err.expect TokType.TOK_PROGRAM TokType.TOK_EOF⟩ :=
  ⟨by decide, parse_program_first_spec ⟨TokType.TOK_EOF, "", ⟨1, 0⟩⟩ (by decide)⟩

/-- The token stream of the scenario input
program p: f()->int: return 1 main: chillax
with one-based columns at each lexeme's start. -/
def c7Toks : List Token :=
  [⟨TokType.TOK_PROGRAM, "program", ⟨1, 1⟩⟩,
   ⟨TokType.TOK_ID, "p", ⟨1, 9⟩⟩,
   ⟨TokType.TOK_COLON, ":", ⟨1, 10⟩⟩,
   ⟨TokType.TOK_ID, "f", ⟨1, 12⟩⟩,
   ⟨TokType.TOK_LPAREN, "(", ⟨1, 13⟩⟩,
   ⟨TokType.TOK_RPAREN, ")", ⟨1, 14⟩⟩,
   ⟨TokType.TOK_ARROW, "->", ⟨1, 15⟩⟩,
   ⟨TokType.TOK_INT, "int", ⟨1, 17⟩⟩,
   ⟨TokType.TOK_COLON, ":", ⟨1, 20⟩⟩,
   ⟨TokType.TOK_RETURN, "return", ⟨1, 22⟩⟩,
   ⟨TokType.TOK_NUM, "1", ⟨1, 29⟩⟩,
   ⟨TokType.TOK_MAIN, "main", ⟨1, 31⟩⟩,
   ⟨TokType.TOK_COLON, ":", ⟨1, 36⟩⟩,
   ⟨TokType.TOK_CHILLAX, "chillax", ⟨1, 38⟩⟩,
   ⟨TokType.TOK_EOF, "", ⟨1, 45⟩⟩]

/-- C7 counterexample: on the scenario input the compiler aborts at the right
parenthesis of f() — a subroutine header requires at least one parameter, so
parse_type fires on the ) — with the type-specifier diagnostic, whose text is
not the claimed expected-colon text. -/
theorem c7_rejected_at_rparen :
    parse_programF c7Toks =
      FragResult.abortc ⟨⟨1, 14⟩, Err.expectedTypeSpecifier TokType.TOK_RPAREN⟩ ∧
    renderErr (Err.expectedTypeSpecifier TokType.TOK_RPAREN) ≠
      some "expected ':', but found 'main'" :=
  ⟨rfl, by decide⟩

/-- C7 amended: the scenario input is rejected at the ) token of f() (position
(1,14)) with the diagnostic text expected type specifier, but found ')'. -/
theorem c7_diag_text :
    parse_programF c7Toks =
      FragResult.abortc ⟨⟨1, 14⟩, Err.expectedTypeSpecifier TokType.TOK_RPAREN⟩ ∧
    renderErr (Err.expectedTypeSpecifier TokType.TOK_RPAREN) =
      some "expected type specifier, but found ')'" :=
  ⟨rfl, rfl⟩
